import Mathlib

/-
Verification development for the QR/barcode decode pipeline of the
PagueBem lambda service (src/lambda/services/qrcode_service.py,
src/lambda/controller/qrcode_controller.py).

The embedding models:
  * the base64 cleanup and decode step (`_clean_b64`, `base64.b64decode`,
    `Image.open`) as total Lean functions returning `Except`/`Option`;
  * the PIL image operations used by the transform catalog as a free
    algebra `PILImage` (pixel-level semantics of the PIL library are out
    of scope of the claims, which concern which operations are composed);
  * the two decode backends (pyzbar, cv2) as oracle parameters, with
    `PyCall` distinguishing a call that raised from one that returned;
  * the candidate search loop of `QrCodeService.decode_image` as a
    structural recursion over the rotation list and the transform catalog.

Python exceptions are modelled with `Except PyErr`; the controller
first builds the `DecodeRequest` DTO, whose validator rejects empty or
non-string image values (`ValidationError`, a `ValueError` subclass),
then calls the service, and maps `ValueError` (and subclasses, notably
`binascii.Error` and pydantic `ValidationError`) to HTTP 400 and every
other exception (notably `PIL.UnidentifiedImageError`, a subclass of
`OSError`) to HTTP 500, mirroring the try/except clauses of
`QrCodeController.decode`.
-/

/-- A decoded symbol: the dict `{"type": ..., "data": ...}` built by the
backends in `_try_decode_pyzbar` / `_try_decode_cv2`. -/
structure QrSymbol where
  type : String
  data : String
deriving Repr, DecidableEq

/-- The top-level `data` field of a successful response: either a single
payload string (`results[0].get("data")`) or the list of all payload
strings (`[r.get("data") for r in results]`). -/
inductive AggData where
  | one (s : String)
  | many (l : List String)
deriving Repr, DecidableEq

/-- The dict returned by `QrCodeService.decode_image` after the search:
either the failure shape `{found: false, message: ...}` or the success
shape `{found: true, transform: ..., results: ..., data: ...}`. -/
inductive DecodeResponse where
  | failure (message : String)
  | success (transform : String) (results : List QrSymbol) (data : AggData)
deriving Repr, DecidableEq

/-- Python exception classes relevant to the controller dispatch:
`valueError` covers `ValueError` and its subclasses (`binascii.Error`,
pydantic validation errors); `osError` covers `OSError` and its
subclasses (`PIL.UnidentifiedImageError`); `otherError` is any other
exception. -/
inductive PyErr where
  | valueError (msg : String)
  | osError (msg : String)
  | otherError (msg : String)
deriving Repr, DecidableEq

/-- A dynamically typed service input: `_clean_b64` first checks
`isinstance(b64, str)`; every non-string value is collapsed into
`nonStr`. -/
inductive PyVal where
  | str (s : String)
  | nonStr
deriving Repr

/-- Outcome of calling into a Python library function: either the call
raised an exception, or it returned a value. -/
inductive PyCall (α : Type) where
  | raised
  | ret (a : α)
deriving Repr, DecidableEq

/- ── Base64 cleanup (`QrCodeService._clean_b64`) ── -/

/-- Whitespace characters recognised by Python `str.split()` on the
ASCII range (the full Python set also has some Unicode spaces, which no
theorem below exercises). -/
def isPySpace (c : Char) : Bool :=
  c = ' ' || c = '\t' || c = '\n' || c = '\r' || c = '\x0b' || c = '\x0c'

/-- Test for `b64.startswith("data:")`. -/
def startsWithDataUri : List Char → Bool
  | 'd' :: 'a' :: 't' :: 'a' :: ':' :: _ => true
  | _ => false

/-- Everything after the first comma, if a comma is present; models
`b64.split(",", 1)` having length 2 and taking `parts[1]`. -/
def dropAfterComma : List Char → Option (List Char)
  | [] => none
  | c :: cs => if c = ',' then some cs else dropAfterComma cs

/-- The cleanup applied by `_clean_b64` to a string argument: strip the
data-URI prefix when the string starts with `data:` and has a comma,
then remove all whitespace (Python: `"".join(b64.split())`). -/
def clean_b64_str (b64 : String) : String :=
  let cs := b64.data
  let cs := if startsWithDataUri cs then
      match dropAfterComma cs with
      | some rest => rest
      | none => cs
    else cs
  (cs.filter (fun c => !isPySpace c)).asString

/-- Model of `QrCodeService._clean_b64`: a non-string argument raises
`ValueError("image must be a base64 string")`, a string is cleaned. -/
def clean_b64 : PyVal → Except PyErr String
  | .nonStr => .error (.valueError "image must be a base64 string")
  | .str s => .ok (clean_b64_str s)

/- ── base64.b64decode (CPython binascii.a2b_base64, non-strict mode) ── -/

/-- Value of a character in the standard base64 alphabet, `none` for a
character outside the alphabet (skipped in non-strict mode). -/
def b64Val (c : Char) : Option Nat :=
  if 'A' ≤ c ∧ c ≤ 'Z' then some (c.toNat - 65)
  else if 'a' ≤ c ∧ c ≤ 'z' then some (c.toNat - 97 + 26)
  else if '0' ≤ c ∧ c ≤ '9' then some (c.toNat - 48 + 52)
  else if c = '+' then some 62
  else if c = '/' then some 63
  else none

/-- Main loop of CPython `binascii.a2b_base64` in non-strict mode (the
mode `base64.b64decode` uses by default): characters outside the
alphabet are skipped; a pad character `=` seen with at least two quad
characters accumulated and enough pads ends the decode successfully;
at end of input a quad position of 1, 2 or 3 raises `binascii.Error`
(a subclass of `ValueError`), modelled as `none`.  Arguments: remaining
characters, quad position, leftover bits, pad count, emitted bytes in
reverse. -/
def a2bBase64 : List Char → Nat → Nat → Nat → List Nat → Option (List Nat)
  | [], quadPos, _, _, acc =>
      if quadPos = 0 then some acc.reverse else none
  | c :: cs, quadPos, leftchar, pads, acc =>
      if c = '=' then
        if 2 ≤ quadPos then
          if 4 ≤ quadPos + (pads + 1) then some acc.reverse
          else a2bBase64 cs quadPos leftchar (pads + 1) acc
        else a2bBase64 cs quadPos leftchar pads acc
      else
        match b64Val c with
        | none => a2bBase64 cs quadPos leftchar pads acc
        | some v =>
          match quadPos with
          | 0 => a2bBase64 cs 1 v 0 acc
          | 1 => a2bBase64 cs 2 (v % 16) 0 ((leftchar * 4 + v / 16) :: acc)
          | 2 => a2bBase64 cs 3 (v % 4) 0 ((leftchar * 16 + v / 4) :: acc)
          | _ => a2bBase64 cs 0 0 0 ((leftchar * 64 + v) :: acc)

/-- Model of `base64.b64decode` as called by
`QrCodeService._decode_base64_to_image`: `none` means the call raised
`binascii.Error` (a `ValueError`). -/
def b64decode (s : String) : Option (List Nat) :=
  a2bBase64 s.data 0 0 0 []

/- ── PIL image operations as a free algebra ── -/

/-- PIL resampling filters used by the service (`Image.BICUBIC` in
`gray_resize_x2`, `Image.LANCZOS` in the downsample optimization). -/
inductive ResampleMode where
  | bicubic
  | lanczos
deriving Repr, DecidableEq

/-- The PIL image operations used by `qrcode_service.py`, as a free
algebra over an input image with explicit dimensions.  Pixel-level
semantics of PIL are outside the scope of the claims; what matters is
which operations are composed, in which order and with which
arguments.  Enhancement factors are the literal `2.0` of the source,
recorded as the natural number 2. -/
inductive PILImage where
  | src (w h : Nat)
  | convertL (im : PILImage)
  | resize (im : PILImage) (w h : Nat) (mode : ResampleMode)
  | enhanceContrast (im : PILImage) (factor : Nat)
  | enhanceSharpness (im : PILImage) (factor : Nat)
  | point (im : PILImage) (f : Nat → Nat)
  | invert (im : PILImage)
  | rotateExpand (im : PILImage) (angle : Nat)

/-- Dimensions of a modelled image (`im.size` in PIL): `convertL`,
enhancement, `point` and `invert` preserve size; `resize` sets it;
rotation with `expand=True` by a right angle swaps width and height for
90 and 270 degrees. -/
def PILImage.size : PILImage → Nat × Nat
  | .src w h => (w, h)
  | .convertL im => im.size
  | .resize _ w h _ => (w, h)
  | .enhanceContrast im _ => im.size
  | .enhanceSharpness im _ => im.size
  | .point im _ => im.size
  | .invert im => im.size
  | .rotateExpand im a => if a % 180 = 0 then im.size else (im.size.2, im.size.1)

/-- The transform catalog `TRANSFORMS` of `qrcode_service.py`: the
eight named preprocessing transforms in source order. -/
def TRANSFORMS : List (String × (PILImage → PILImage)) := [
  ("orig", fun im => im),
  ("gray", fun im => im.convertL),
  ("gray_resize_x2", fun im =>
    (im.convertL).resize (im.size.1 * 2) (im.size.2 * 2) .bicubic),
  ("contrast_x2", fun im => (im.convertL).enhanceContrast 2),
  ("sharp_x2", fun im => im.enhanceSharpness 2),
  ("contrast_gray_thresh", fun im =>
    ((im.convertL).enhanceContrast 2).point (fun p => if p > 120 then 255 else 0)),
  ("binary", fun im => (im.convertL).point (fun p => if p > 128 then 255 else 0)),
  ("invert", fun im => (im.convertL).invert)
]

/-- Model of `img.rotate(angle, expand=True)` as used inside the search
loop.  The modelled PIL rotation is total; the generic search keeps an
`Option` so that a raising rotation or transform (the `except` branch
of the loop) is representable. -/
def pilRotate (im : PILImage) (angle : Nat) : Option PILImage :=
  some (im.rotateExpand angle)

/-- Model of `img.resize((new_w, new_h), Image.LANCZOS)` used by the
pre-search downsample optimization. -/
def pilResizeDown (im : PILImage) (w h : Nat) : PILImage :=
  im.resize w h .lanczos

/-- The catalog entries as possibly-failing transforms, as consumed by
the generic search loop: the modelled PIL operations are total, so each
application is wrapped in `some`. -/
def liftTransforms (ts : List (String × (PILImage → PILImage))) :
    List (String × (PILImage → Option PILImage)) :=
  ts.map (fun t => (t.1, fun im => some (t.2 im)))

/- ── Decode backends ── -/

/-- Model of `QrCodeService._try_decode_pyzbar`: if pyzbar is not
available the function returns `[]`; if the `zbar_decode` call raised,
the surrounding `except` returns `[]`; otherwise the detections are
returned.  The per-detection byte-to-string conversion (`utf-8` with a
`latin-1`/replace fallback, which never raises) is abstracted by
letting the oracle carry the resulting `QrSymbol` values directly. -/
def try_decode_pyzbar (hasPyzbar : Bool) (zbarRes : PyCall (List QrSymbol)) :
    List QrSymbol :=
  if !hasPyzbar then []
  else
    match zbarRes with
    | .raised => []
    | .ret syms => syms

/-- Model of `QrCodeService._try_decode_cv2`.  `conv` is the
`np.array`/BGR conversion step (raising sends control to the outer
`except`, returning `[]`).  When `detectAndDecodeMulti` exists
(`hasMulti`), a raising call yields `decoded_info = []`, a `None`
result is replaced by `[]`, and only detections with non-empty decoded
text are kept (`if info:`), each reported with type `"QRCODE"`.
Otherwise `detectAndDecode` is used: a raising call appends nothing and
a non-empty decoded string is appended with type `"QRCODE"`. -/
def try_decode_cv2 (hasCv2 : Bool) (conv : PyCall Unit) (hasMulti : Bool)
    (multiRes : PyCall (Option (List String))) (singleRes : PyCall String) :
    List QrSymbol :=
  if !hasCv2 then []
  else
    match conv with
    | .raised => []
    | .ret _ =>
      if hasMulti then
        let decodedInfo :=
          match multiRes with
          | .raised => []
          | .ret none => []
          | .ret (some l) => l
        (decodedInfo.filter (fun s => !(s = ""))).map
          (fun s => { type := "QRCODE", data := s })
      else
        match singleRes with
        | .raised => []
        | .ret info => if !(info = "") then [{ type := "QRCODE", data := info }] else []

/-- Model of `QrCodeService._try_decode`: try pyzbar first; a non-empty
pyzbar result is returned; otherwise try cv2 and return its result if
non-empty; otherwise return `[]`.  The arguments are the values the two
helper functions return for the candidate image. -/
def try_decode (hasPyzbar hasCv2 : Bool) (pyzbarRes cv2Res : List QrSymbol) :
    List QrSymbol :=
  if hasPyzbar && !pyzbarRes.isEmpty then pyzbarRes
  else if hasCv2 && !cv2Res.isEmpty then cv2Res
  else []

/-- Which backends a run of `_try_decode` invoked. -/
structure TryTrace where
  pyzbarInvoked : Bool
  cv2Invoked : Bool
deriving Repr, DecidableEq

/-- Instrumented version of `_try_decode`: the same control flow,
additionally recording which backend helpers were called.  Under
`HAS_PYZBAR` the pyzbar helper is called; only when its result is empty
and `HAS_CV2` holds is the cv2 helper called. -/
def try_decode_traced (hasPyzbar hasCv2 : Bool) (pyzbarRes cv2Res : List QrSymbol) :
    List QrSymbol × TryTrace :=
  if hasPyzbar then
    if !pyzbarRes.isEmpty then (pyzbarRes, ⟨true, false⟩)
    else
      if hasCv2 then
        if !cv2Res.isEmpty then (cv2Res, ⟨true, true⟩) else ([], ⟨true, true⟩)
      else ([], ⟨true, false⟩)
  else
    if hasCv2 then
      if !cv2Res.isEmpty then (cv2Res, ⟨false, true⟩) else ([], ⟨false, true⟩)
    else ([], ⟨false, false⟩)

/-- The backend oracle signatures for a run of the service: pyzbar
detections, the cv2 conversion step, the cv2 multi-detect call and the
cv2 single-detect call, each as a function of the candidate image. -/
abbrev ZbarOracle := PILImage → PyCall (List QrSymbol)

abbrev ConvOracle := PILImage → PyCall Unit

abbrev MultiOracle := PILImage → PyCall (Option (List String))

abbrev SingleOracle := PILImage → PyCall String

/-- The full backend chain applied to one candidate image, as the
search loop calls it: `_try_decode` over the results of
`_try_decode_pyzbar` and `_try_decode_cv2`. -/
def backendAttempt (hasPyzbar hasCv2 hasMulti : Bool) (zb : ZbarOracle)
    (cn : ConvOracle) (ml : MultiOracle) (sg : SingleOracle) :
    PILImage → List QrSymbol :=
  fun im =>
    try_decode hasPyzbar hasCv2
      (try_decode_pyzbar hasPyzbar (zb im))
      (try_decode_cv2 hasCv2 (cn im) hasMulti (ml im) (sg im))

/- ── Candidate search loop (`QrCodeService.decode_image`) ── -/

/-- The rotation step inside the loop:
`img.rotate(angle, expand=True) if angle != 0 else img`. -/
def rotStep {Img : Type} (rotate : Img → Nat → Option Img) (img : Img)
    (angle : Nat) : Option Img :=
  if angle ≠ 0 then rotate img angle else some img

/-- The inner loop of `decode_image` at a fixed rotation angle: walk
the transform catalog in order; a raising rotation or transform
(`none`) skips the candidate (`except: continue`); a non-empty decode
result ends the search with the candidate name `f"{name}_rot{angle}"`
and the decoded symbols; an empty result moves to the next entry. -/
def search_transforms {Img : Type} (rotate : Img → Nat → Option Img)
    (tryDec : Img → List QrSymbol) (img : Img) (angle : Nat) :
    List (String × (Img → Option Img)) → Option (String × List QrSymbol)
  | [] => none
  | (nm, fn) :: rest =>
    match (rotStep rotate img angle).bind fn with
    | none => search_transforms rotate tryDec img angle rest
    | some imgT =>
      let decoded := tryDec imgT
      if decoded.isEmpty then search_transforms rotate tryDec img angle rest
      else some (nm ++ "_rot" ++ toString angle, decoded)

/-- The outer loop of `decode_image`: walk the rotation angles in
order, running the inner loop at each; the first success ends the
search (`if found: break`). -/
def search_angles {Img : Type} (rotate : Img → Nat → Option Img)
    (tryDec : Img → List QrSymbol) (img : Img)
    (transforms : List (String × (Img → Option Img))) :
    List Nat → Option (String × List QrSymbol)
  | [] => none
  | a :: rest =>
    match search_transforms rotate tryDec img a transforms with
    | some r => some r
    | none => search_angles rotate tryDec img transforms rest

/-- The decode attempt of one candidate `(angle, (name, fn))`: rotate,
transform, then run the backend chain; a raising rotation or transform
counts as an empty result (the candidate is skipped). -/
def attemptCand {Img : Type} (rotate : Img → Nat → Option Img)
    (tryDec : Img → List QrSymbol) (img : Img)
    (c : Nat × String × (Img → Option Img)) : List QrSymbol :=
  match (rotStep rotate img c.1).bind c.2.2 with
  | none => []
  | some imgT => tryDec imgT

/-- The candidate space in iteration order: angles outermost (0, 90,
180, 270), catalog entries innermost (catalog order). -/
def candList {Img : Type} (transforms : List (String × (Img → Option Img)))
    (angles : List Nat) : List (Nat × String × (Img → Option Img)) :=
  angles.flatMap (fun a => transforms.map (fun t => (a, t)))

/-- The top-level `data` field of a successful response (the
`Convenience: top-level data field` block of `decode_image`): the
single payload when `len(results) == 1`, else the list of payloads. -/
def deriveData (results : List QrSymbol) : AggData :=
  if results.length = 1 then .one (results.headD ⟨"", ""⟩).data
  else .many (results.map QrSymbol.data)

/-- The image the search loop actually runs on: `decode_image`
downsamples an image whose larger dimension exceeds 1000 pixels to at
most 1000 pixels, but only when pyzbar is unavailable.  Python
computes the new dimensions through a float scale and `int(...)`
truncation; this is rendered with natural-number division. -/
def effectiveImage {Img : Type} (hasPyzbar : Bool) (size : Img → Nat × Nat)
    (resizeDown : Img → Nat → Nat → Img) (img : Img) : Img :=
  let wh := size img
  let maxDim := max wh.1 wh.2
  if 1000 < maxDim && !hasPyzbar then
    resizeDown img (wh.1 * 1000 / maxDim) (wh.2 * 1000 / maxDim)
  else img

/-- The search portion of `QrCodeService.decode_image`, generic in the
image type: optional downsample, then the rotation × transform search;
exhaustion yields the failure dict with its fixed message, success
yields the success dict with `transform`, `results` and `data`. -/
def decode_image_core {Img : Type} (hasPyzbar : Bool) (size : Img → Nat × Nat)
    (resizeDown : Img → Nat → Nat → Img) (rotate : Img → Nat → Option Img)
    (tryDec : Img → List QrSymbol)
    (transforms : List (String × (Img → Option Img))) (img : Img) :
    DecodeResponse :=
  match search_angles rotate tryDec (effectiveImage hasPyzbar size resizeDown img)
      transforms [0, 90, 180, 270] with
  | none => .failure "No QR/barcode detected with tried preprocessing steps"
  | some r => .success r.1 r.2 (deriveData r.2)

/-- The search loop of the service instantiated at the modelled PIL
images, the real catalog `TRANSFORMS` and the real backend chain. -/
def decode_image_loop (hasPyzbar hasCv2 hasMulti : Bool) (zb : ZbarOracle)
    (cn : ConvOracle) (ml : MultiOracle) (sg : SingleOracle)
    (img : PILImage) : DecodeResponse :=
  decode_image_core hasPyzbar PILImage.size pilResizeDown pilRotate
    (backendAttempt hasPyzbar hasCv2 hasMulti zb cn ml sg)
    (liftTransforms TRANSFORMS) img

/- ── Image loader, service and controller boundary ── -/

/-- Model of `QrCodeService._decode_base64_to_image`: clean the input,
base64-decode it (`binascii.Error`, a `ValueError`, on failure), then
open the bytes as an image.  `imageOpen` models `Image.open` plus
`img.load()`: `none` means the call raised
`PIL.UnidentifiedImageError`, which is a subclass of `OSError`, not of
`ValueError`. -/
def decode_base64_to_image (imageOpen : List Nat → Option PILImage)
    (v : PyVal) : Except PyErr PILImage :=
  match clean_b64 v with
  | .error e => .error e
  | .ok cleaned =>
    match b64decode cleaned with
    | none => .error (.valueError "Invalid base64-encoded string")
    | some raw =>
      match imageOpen raw with
      | none => .error (.osError "cannot identify image file")
      | some img => .ok img

/-- Model of the full `QrCodeService.decode_image`: load the image (any
exception propagates to the caller) and run the candidate search on the
result.  The search itself is total, so the only errors are the two
loader errors. -/
def decode_image (hasPyzbar hasCv2 hasMulti : Bool) (zb : ZbarOracle)
    (cn : ConvOracle) (ml : MultiOracle) (sg : SingleOracle)
    (imageOpen : List Nat → Option PILImage) (v : PyVal) :
    Except PyErr DecodeResponse :=
  match decode_base64_to_image imageOpen v with
  | .error e => .error e
  | .ok img => .ok (decode_image_loop hasPyzbar hasCv2 hasMulti zb cn ml sg img)

/-- HTTP status produced by `QrCodeController.decode` for a service
outcome: 200 on success, 400 for a `ValueError` (`except ValueError`),
500 for every other exception (`except Exception`).  Body construction
by `build_response` is elided; the status codes are the literals of the
controller. -/
def controller_status : Except PyErr DecodeResponse → Nat
  | .ok _ => 200
  | .error (.valueError _) => 400
  | .error (.osError _) => 500
  | .error (.otherError _) => 500

/-- Model of the `DecodeRequest` DTO construction inside
`QrCodeController.decode`: the `validate_image` field validator raises
`ValueError("image_base64 must be a non-empty string")` when the value
is falsy or not a string (pydantic wraps it in a `ValidationError`,
itself a `ValueError` subclass; a non-string value already fails
pydantic's own `str` field typing, also a `ValidationError`).  A
non-empty string passes through unchanged. -/
def dto_validate : PyVal → Except PyErr PyVal
  | .nonStr => .error (.valueError "image_base64 must be a non-empty string")
  | .str s =>
      if s = "" then .error (.valueError "image_base64 must be a non-empty string")
      else .ok (.str s)

/-- The body of the `try` block of `QrCodeController.decode` for the
request image value: build and validate the `DecodeRequest` DTO, then
call `QrCodeService.decode_image` on the validated value; the first
exception raised is the outcome. -/
def controller_body (hasPyzbar hasCv2 hasMulti : Bool) (zb : ZbarOracle)
    (cn : ConvOracle) (ml : MultiOracle) (sg : SingleOracle)
    (imageOpen : List Nat → Option PILImage) (v : PyVal) :
    Except PyErr DecodeResponse :=
  match dto_validate v with
  | .error e => .error e
  | .ok dto => decode_image hasPyzbar hasCv2 hasMulti zb cn ml sg imageOpen dto

/-- The controller boundary for the decode endpoint: validate the DTO,
run the service on the request image value and map the outcome to an
HTTP status. -/
def controller_decode (hasPyzbar hasCv2 hasMulti : Bool) (zb : ZbarOracle)
    (cn : ConvOracle) (ml : MultiOracle) (sg : SingleOracle)
    (imageOpen : List Nat → Option PILImage) (v : PyVal) : Nat :=
  controller_status (controller_body hasPyzbar hasCv2 hasMulti zb cn ml sg imageOpen v)

/-- Model of the PIL image opener on the byte payloads exercised by the
theorems below: an empty byte payload cannot be identified as an image
and raises `UnidentifiedImageError` (`Image.open` on empty bytes).  The
behaviour on non-empty payloads is irrelevant to every theorem below
and is fixed arbitrarily to a successful open. -/
def pilOpenModel (raw : List Nat) : Option PILImage :=
  if raw.isEmpty then none else some (.src 1 1)

/-- Rendering of the search result as the response dict: exhaustion
gives the failure shape with the fixed message; a found candidate gives
the success shape with the candidate key rendered as
`f"{name}_rot{angle}"`, its attempt as `results`, and the derived
`data` field. -/
def renderOutcome {Img : Type}
    (attempt : (Nat × String × (Img → Option Img)) → List QrSymbol) :
    Option (Nat × String × (Img → Option Img)) → DecodeResponse
  | none => .failure "No QR/barcode detected with tried preprocessing steps"
  | some c => .success (c.2.1 ++ "_rot" ++ toString c.1) (attempt c)
      (deriveData (attempt c))

/- ── Structure lemmas for the search loop ── -/

/-- The inner loop is a first-match over the catalog paired with the
current angle: the result is the first candidate at this angle whose
attempt is non-empty, rendered with its name and symbols. -/
theorem search_transforms_eq {Img : Type} (rotate : Img → Nat → Option Img)
    (tryDec : Img → List QrSymbol) (img : Img) (angle : Nat)
    (ts : List (String × (Img → Option Img))) :
    search_transforms rotate tryDec img angle ts =
      ((ts.map (fun t => (angle, t))).find?
          (fun c => !(attemptCand rotate tryDec img c).isEmpty)).map
        (fun c => (c.2.1 ++ "_rot" ++ toString c.1, attemptCand rotate tryDec img c)) := by
  induction ts with
  | nil => rfl
  | cons t rest ih =>
    obtain ⟨nm, fn⟩ := t
    cases h : (rotStep rotate img angle).bind fn with
    | none =>
      have ha : attemptCand rotate tryDec img (angle, nm, fn) = [] := by
        show (match (rotStep rotate img angle).bind fn with
          | none => ([] : List QrSymbol)
          | some imgT => tryDec imgT) = []
        rw [h]
      simp only [search_transforms, h, List.map_cons, List.find?_cons, ha,
        List.isEmpty_nil, Bool.not_true]
      exact ih
    | some imgT =>
      have ha : attemptCand rotate tryDec img (angle, nm, fn) = tryDec imgT := by
        show (match (rotStep rotate img angle).bind fn with
          | none => ([] : List QrSymbol)
          | some imgT => tryDec imgT) = tryDec imgT
        rw [h]
      by_cases hd : (tryDec imgT).isEmpty
      · simp only [search_transforms, h, hd, if_true, List.map_cons, List.find?_cons, ha,
          Bool.not_true]
        exact ih
      · rw [Bool.not_eq_true] at hd
        simp only [search_transforms, h, hd, List.map_cons, List.find?_cons, ha,
          Bool.not_false, Bool.false_eq_true, if_false, Option.map_some']

/-- The whole search is a first-match over the flattened candidate
list, angles outermost. -/
theorem search_angles_eq {Img : Type} (rotate : Img → Nat → Option Img)
    (tryDec : Img → List QrSymbol) (img : Img)
    (ts : List (String × (Img → Option Img))) (angles : List Nat) :
    search_angles rotate tryDec img ts angles =
      ((candList ts angles).find?
          (fun c => !(attemptCand rotate tryDec img c).isEmpty)).map
        (fun c => (c.2.1 ++ "_rot" ++ toString c.1, attemptCand rotate tryDec img c)) := by
  induction angles with
  | nil => rfl
  | cons a rest ih =>
    simp only [search_angles, candList, List.flatMap_cons, List.find?_append]
    rw [search_transforms_eq rotate tryDec img a ts]
    cases hf : (ts.map (fun t => (a, t))).find?
        (fun c => !(attemptCand rotate tryDec img c).isEmpty) with
    | none =>
      simp only [Option.map_none', Option.none_or]
      exact ih
    | some c =>
      simp [Option.or_some]

/-- The search portion of `decode_image` rendered as a first-match over
the 32 candidates, with the failure message on exhaustion and the
success dict otherwise. -/
theorem decode_image_core_eq {Img : Type} (hasPyzbar : Bool)
    (size : Img → Nat × Nat) (resizeDown : Img → Nat → Nat → Img)
    (rotate : Img → Nat → Option Img) (tryDec : Img → List QrSymbol)
    (ts : List (String × (Img → Option Img))) (img : Img) :
    decode_image_core hasPyzbar size resizeDown rotate tryDec ts img =
      renderOutcome
        (attemptCand rotate tryDec (effectiveImage hasPyzbar size resizeDown img))
        ((candList ts [0, 90, 180, 270]).find?
          (fun c => !(attemptCand rotate tryDec
              (effectiveImage hasPyzbar size resizeDown img) c).isEmpty)) := by
  unfold decode_image_core
  rw [search_angles_eq]
  cases hf : (candList ts [0, 90, 180, 270]).find?
      (fun c => !(attemptCand rotate tryDec
          (effectiveImage hasPyzbar size resizeDown img) c).isEmpty) with
  | none => rfl
  | some c => rfl

/-- Exhaustion: when every candidate attempt is empty the search
returns the failure shape. -/
theorem decode_core_all_empty {Img : Type} (hasPyzbar : Bool)
    (size : Img → Nat × Nat) (resizeDown : Img → Nat → Nat → Img)
    (rotate : Img → Nat → Option Img) (tryDec : Img → List QrSymbol)
    (ts : List (String × (Img → Option Img))) (img : Img)
    (h : ∀ c ∈ candList ts [0, 90, 180, 270],
        attemptCand rotate tryDec (effectiveImage hasPyzbar size resizeDown img) c = []) :
    decode_image_core hasPyzbar size resizeDown rotate tryDec ts img =
      .failure "No QR/barcode detected with tried preprocessing steps" := by
  rw [decode_image_core_eq]
  have hnone : (candList ts [0, 90, 180, 270]).find?
      (fun c => !(attemptCand rotate tryDec
          (effectiveImage hasPyzbar size resizeDown img) c).isEmpty) = none := by
    rw [List.find?_eq_none]
    intro c hc
    simp [h c hc]
  rw [hnone]
  rfl

/-- A candidate whose rotation/transform step fails has an empty
attempt. -/
theorem attemptCand_empty_of_none {Img : Type} (rotate : Img → Nat → Option Img)
    (tryDec : Img → List QrSymbol) (img : Img)
    (c : Nat × String × (Img → Option Img))
    (h : (rotStep rotate img c.1).bind c.2.2 = none) :
    attemptCand rotate tryDec img c = [] := by
  unfold attemptCand
  rw [h]

/-- A candidate whose rotation/transform step yields an image has the
backend chain result as its attempt. -/
theorem attemptCand_of_some {Img : Type} (rotate : Img → Nat → Option Img)
    (tryDec : Img → List QrSymbol) (img : Img)
    (c : Nat × String × (Img → Option Img)) (imgT : Img)
    (h : (rotStep rotate img c.1).bind c.2.2 = some imgT) :
    attemptCand rotate tryDec img c = tryDec imgT := by
  unfold attemptCand
  rw [h]

/- ── Concrete oracle instances used by witnesses ── -/

/-- A pyzbar oracle that finds nothing. -/
def zbarNone : ZbarOracle := fun _ => .ret []

/-- A pyzbar oracle that reports two symbols on every image. -/
def zbarTwo : ZbarOracle :=
  fun _ => .ret [⟨"QRCODE", "HELLO"⟩, ⟨"QRCODE", "WORLD"⟩]

/-- A cv2 conversion step that succeeds. -/
def convOk : ConvOracle := fun _ => .ret ()

/-- A cv2 multi-detect call that finds nothing. -/
def multiNone : MultiOracle := fun _ => .ret (some [])

/-- A cv2 single-detect call that decodes nothing. -/
def singleNone : SingleOracle := fun _ => .ret ""

/- ── Claim theorems ── -/

/-- C1: the search iterates rotation angles in the fixed order 0, 90,
180, 270 (outer) and the eight catalog transforms in catalog order
(inner), and returns at the first candidate whose decode attempt is
non-empty: the reported candidate is that pair rendered as
`name_rot angle`, the reported symbols are exactly the ones that
backend call returned, and no later candidate is reflected in the
outcome — the whole loop equals a first-match over the flattened
candidate list. -/
theorem c1_first_success_wins (hasPyzbar hasCv2 hasMulti : Bool)
    (zb : ZbarOracle) (cn : ConvOracle) (ml : MultiOracle) (sg : SingleOracle)
    (img : PILImage) :
    decode_image_loop hasPyzbar hasCv2 hasMulti zb cn ml sg img =
      renderOutcome
        (attemptCand pilRotate (backendAttempt hasPyzbar hasCv2 hasMulti zb cn ml sg)
          (effectiveImage hasPyzbar PILImage.size pilResizeDown img))
        ((candList (liftTransforms TRANSFORMS) [0, 90, 180, 270]).find?
          (fun c => !(attemptCand pilRotate
              (backendAttempt hasPyzbar hasCv2 hasMulti zb cn ml sg)
              (effectiveImage hasPyzbar PILImage.size pilResizeDown img) c).isEmpty)) := by
  unfold decode_image_loop
  exact decode_image_core_eq hasPyzbar PILImage.size pilResizeDown pilRotate
    (backendAttempt hasPyzbar hasCv2 hasMulti zb cn ml sg)
    (liftTransforms TRANSFORMS) img

/-- C5: in every successful search outcome the top-level `data` field
derives from the matched symbol list: a single symbol contributes its
payload string, more than one symbol contributes the ordered list of
all payload strings in backend order. -/
theorem c5_aggregate_data (hasPyzbar hasCv2 hasMulti : Bool)
    (zb : ZbarOracle) (cn : ConvOracle) (ml : MultiOracle) (sg : SingleOracle)
    (img : PILImage) (t : String) (results : List QrSymbol) (d : AggData)
    (h : decode_image_loop hasPyzbar hasCv2 hasMulti zb cn ml sg img =
        .success t results d) :
    (∀ r, results = [r] → d = .one r.data) ∧
    (1 < results.length → d = .many (results.map QrSymbol.data)) := by
  rw [show decode_image_loop hasPyzbar hasCv2 hasMulti zb cn ml sg img =
      decode_image_core hasPyzbar PILImage.size pilResizeDown pilRotate
        (backendAttempt hasPyzbar hasCv2 hasMulti zb cn ml sg)
        (liftTransforms TRANSFORMS) img from rfl,
    decode_image_core_eq] at h
  cases hf : (candList (liftTransforms TRANSFORMS) [0, 90, 180, 270]).find?
      (fun c => !(attemptCand pilRotate
          (backendAttempt hasPyzbar hasCv2 hasMulti zb cn ml sg)
          (effectiveImage hasPyzbar PILImage.size pilResizeDown img) c).isEmpty) with
  | none =>
    rw [hf] at h
    exact absurd h (by simp [renderOutcome])
  | some c =>
    rw [hf] at h
    simp only [renderOutcome] at h
    injection h with h1 h2 h3
    subst h2
    constructor
    · intro r hr
      rw [hr] at h3
      rw [← h3]
      simp [deriveData]
    · intro hlen
      have hne : (attemptCand pilRotate
          (backendAttempt hasPyzbar hasCv2 hasMulti zb cn ml sg)
          (effectiveImage hasPyzbar PILImage.size pilResizeDown img) c).length ≠ 1 := by
        omega
      rw [← h3]
      simp [deriveData, hne]

/-- C6: on any image for which all 32 candidates (4 rotations times 8
transforms) yield an empty decode attempt, the search returns exactly
the failure shape with message
`No QR/barcode detected with tried preprocessing steps`; the candidate
space has exactly 32 elements, and the loop is a total function, so it
never raises. -/
theorem c6_exhaustion_failure (hasPyzbar hasCv2 hasMulti : Bool)
    (zb : ZbarOracle) (cn : ConvOracle) (ml : MultiOracle) (sg : SingleOracle)
    (img : PILImage)
    (h : ∀ c ∈ candList (liftTransforms TRANSFORMS) [0, 90, 180, 270],
        attemptCand pilRotate (backendAttempt hasPyzbar hasCv2 hasMulti zb cn ml sg)
          (effectiveImage hasPyzbar PILImage.size pilResizeDown img) c = []) :
    decode_image_loop hasPyzbar hasCv2 hasMulti zb cn ml sg img =
        .failure "No QR/barcode detected with tried preprocessing steps"
    ∧ (candList (liftTransforms TRANSFORMS) ([0, 90, 180, 270] : List Nat)).length = 32 := by
  constructor
  · exact decode_core_all_empty hasPyzbar PILImage.size pilResizeDown pilRotate
      (backendAttempt hasPyzbar hasCv2 hasMulti zb cn ml sg)
      (liftTransforms TRANSFORMS) img h
  · rfl

/-- C3: the backend chain tries pyzbar first when available and a
non-empty pyzbar result is final with cv2 never invoked; when pyzbar
returns empty or is unavailable, cv2 is invoked and its non-empty
result is used; when neither backend is available every attempt is
empty and the whole search ends with the failure shape rather than an
error.  The first conjunct ties the instrumented chain to the deployed
`try_decode`. -/
theorem c3_backend_fallback (hasPyzbar hasCv2 hasMulti : Bool)
    (pz cv : List QrSymbol) (zb : ZbarOracle) (cn : ConvOracle)
    (ml : MultiOracle) (sg : SingleOracle) (img : PILImage) :
    (try_decode_traced hasPyzbar hasCv2 pz cv).1 = try_decode hasPyzbar hasCv2 pz cv
    ∧ (pz ≠ [] → try_decode_traced true hasCv2 pz cv = (pz, ⟨true, false⟩))
    ∧ (pz = [] → cv ≠ [] → try_decode_traced true true pz cv = (cv, ⟨true, true⟩))
    ∧ (cv ≠ [] → try_decode_traced false true pz cv = (cv, ⟨false, true⟩))
    ∧ try_decode false false pz cv = []
    ∧ decode_image_loop false false hasMulti zb cn ml sg img =
        .failure "No QR/barcode detected with tried preprocessing steps" := by
  refine ⟨?_, ?_, ?_, ?_, ?_, ?_⟩
  · cases hasPyzbar <;> cases hasCv2 <;>
      cases hpz : pz.isEmpty <;> cases hcv : cv.isEmpty <;>
      simp [try_decode, try_decode_traced, hpz, hcv]
  · intro hpz
    cases pz with
    | nil => exact absurd rfl hpz
    | cons a l => simp [try_decode_traced]
  · intro hpz hcv
    subst hpz
    cases cv with
    | nil => exact absurd rfl hcv
    | cons a l => simp [try_decode_traced]
  · intro hcv
    cases cv with
    | nil => exact absurd rfl hcv
    | cons a l => simp [try_decode_traced]
  · rfl
  · exact decode_core_all_empty false PILImage.size pilResizeDown pilRotate
      (backendAttempt false false hasMulti zb cn ml sg)
      (liftTransforms TRANSFORMS) img (by
        intro c hc
        cases hb : (rotStep pilRotate
            (effectiveImage false PILImage.size pilResizeDown img) c.1).bind c.2.2 with
        | none => exact attemptCand_empty_of_none _ _ _ _ hb
        | some t =>
          rw [attemptCand_of_some _ _ _ _ _ hb]
          rfl)

/-- C7: a failure inside a single candidate never aborts the search: a
raising rotation/transform step makes the loop skip exactly that
candidate and continue; a raising pyzbar or cv2 call is treated as an
empty result; an empty decode attempt makes the inner loop continue
with the next entry; the loop itself is a total function, so no
exception escapes it. -/
theorem c7_candidate_failure_isolated {Img : Type}
    (rotate : Img → Nat → Option Img) (tryDec : Img → List QrSymbol)
    (img : Img) (angle : Nat) (pre post : List (String × (Img → Option Img)))
    (nm : String) (fn : Img → Option Img)
    (hfail : (rotStep rotate img angle).bind fn = none) :
    search_transforms rotate tryDec img angle (pre ++ (nm, fn) :: post) =
        search_transforms rotate tryDec img angle (pre ++ post)
    ∧ (∀ hasPyzbar : Bool, try_decode_pyzbar hasPyzbar .raised = [])
    ∧ (∀ (hasCv2 hasMulti : Bool) (ml : PyCall (Option (List String)))
        (sg : PyCall String), try_decode_cv2 hasCv2 .raised hasMulti ml sg = [])
    ∧ (∀ (hasCv2 : Bool) (sg : PyCall String),
        try_decode_cv2 hasCv2 (.ret ()) true .raised sg = [])
    ∧ (∀ (hasCv2 : Bool) (ml : PyCall (Option (List String))),
        try_decode_cv2 hasCv2 (.ret ()) false ml .raised = [])
    ∧ (∀ (nm2 : String) (fn2 : Img → Option Img)
        (rest : List (String × (Img → Option Img))) (imgT : Img),
        (rotStep rotate img angle).bind fn2 = some imgT → tryDec imgT = [] →
        search_transforms rotate tryDec img angle ((nm2, fn2) :: rest) =
          search_transforms rotate tryDec img angle rest) := by
  refine ⟨?_, ?_, ?_, ?_, ?_, ?_⟩
  · have hax : attemptCand rotate tryDec img (angle, nm, fn) = [] := by
      show (match (rotStep rotate img angle).bind fn with
        | none => ([] : List QrSymbol)
        | some imgT => tryDec imgT) = []
      rw [hfail]
    rw [search_transforms_eq, search_transforms_eq]
    simp only [List.map_append, List.map_cons, List.find?_append, List.find?_cons, hax,
      List.isEmpty_nil, Bool.not_true]
  · intro hp
    cases hp <;> rfl
  · intro hc hm ml sg
    cases hc <;> rfl
  · intro hc sg
    cases hc <;> rfl
  · intro hc ml
    cases hc <;> rfl
  · intro nm2 fn2 rest imgT h2 hd
    simp only [search_transforms, h2, hd, List.isEmpty_nil, if_true]

/-- C10: every symbol the cv2 backend returns has a non-empty payload:
detections decoding to the empty string are dropped (`if info:`), so an
image whose detections all decode to empty counts as an empty result
for the candidate. -/
theorem c10_cv2_nonempty_payloads :
    (∀ (hasCv2 : Bool) (conv : PyCall Unit) (hasMulti : Bool)
        (ml : PyCall (Option (List String))) (sg : PyCall String) (s : QrSymbol),
        s ∈ try_decode_cv2 hasCv2 conv hasMulti ml sg → s.data ≠ "")
    ∧ (∀ (conv : PyCall Unit) (sg : PyCall String) (l : List String),
        (∀ x ∈ l, x = "") →
        try_decode_cv2 true conv true (.ret (some l)) sg = []) := by
  constructor
  · intro hasCv2 conv hasMulti ml sg s hs
    cases hasCv2 with
    | false => simp [try_decode_cv2] at hs
    | true =>
      cases conv with
      | raised => simp [try_decode_cv2] at hs
      | ret u =>
        cases hasMulti with
        | true =>
          cases ml with
          | raised => simp [try_decode_cv2] at hs
          | ret oinfo =>
            cases oinfo with
            | none => simp [try_decode_cv2] at hs
            | some l =>
              simp only [try_decode_cv2, Bool.not_true, Bool.false_eq_true, if_false,
                if_true] at hs
              rw [List.mem_map] at hs
              obtain ⟨a, ha, hfa⟩ := hs
              rw [List.mem_filter] at ha
              rw [← hfa]
              have hane : ¬(a = "") := by simpa using ha.2
              simpa using hane
        | false =>
          cases sg with
          | raised => simp [try_decode_cv2] at hs
          | ret info =>
            by_cases hinfo : info = ""
            · simp [try_decode_cv2, hinfo] at hs
            · simp [try_decode_cv2, hinfo] at hs
              subst hs
              simpa using hinfo
  · intro conv sg l hl
    cases conv with
    | raised => rfl
    | ret u =>
      simp only [try_decode_cv2, Bool.not_true, Bool.false_eq_true, if_false,
        if_true]
      have : l.filter (fun s => !(s = "")) = [] := by
        rw [List.filter_eq_nil_iff]
        intro a ha
        simp [hl a ha]
      rw [this]
      rfl

/-- C4: for every input string whose cleaned form (data-URI prefix and
whitespace removed) is not valid base64, the loader raises the
`InvalidEncoding` condition (`binascii.Error`, a `ValueError`), the
service propagates it, and the controller surfaces HTTP 400 — never
swallowed. -/
theorem c4_invalid_b64_surfaced (hasPyzbar hasCv2 hasMulti : Bool)
    (zb : ZbarOracle) (cn : ConvOracle) (ml : MultiOracle) (sg : SingleOracle)
    (imageOpen : List Nat → Option PILImage) (s : String)
    (h : b64decode (clean_b64_str s) = none) :
    decode_base64_to_image imageOpen (.str s) =
        .error (.valueError "Invalid base64-encoded string")
    ∧ decode_image hasPyzbar hasCv2 hasMulti zb cn ml sg imageOpen (.str s) =
        .error (.valueError "Invalid base64-encoded string")
    ∧ controller_decode hasPyzbar hasCv2 hasMulti zb cn ml sg imageOpen (.str s) = 400 := by
  have h1 : decode_base64_to_image imageOpen (.str s) =
      .error (.valueError "Invalid base64-encoded string") := by
    simp [decode_base64_to_image, clean_b64, h]
  refine ⟨h1, ?_, ?_⟩
  · simp [decode_image, h1]
  · by_cases hs : s = ""
    · exfalso
      rw [hs] at h
      exact absurd h (by decide)
    · simp [controller_decode, controller_body, dto_validate, hs, decode_image, h1,
        controller_status]

/-- C9: the cleanup removes all whitespace, strips the data-URI prefix
only when the string both starts with `data:` and contains a comma (a
`data:` string without a comma passes through whole, minus whitespace),
and a non-string input raises `ValueError` before any decoding. -/
theorem c9_cleanup_behavior (s : String) :
    (startsWithDataUri s.data = true → s.data.contains ',' = false →
      clean_b64 (.str s) = .ok (s.data.filter (fun c => !isPySpace c)).asString)
    ∧ (∀ c ∈ (clean_b64_str s).data, isPySpace c = false)
    ∧ clean_b64 .nonStr = .error (.valueError "image must be a base64 string")
    ∧ (∀ imageOpen : List Nat → Option PILImage,
        decode_base64_to_image imageOpen .nonStr =
          .error (.valueError "image must be a base64 string")) := by
  have hdrop : ∀ cs : List Char, cs.contains ',' = false → dropAfterComma cs = none := by
    intro cs
    induction cs with
    | nil => intro _; rfl
    | cons c rest ih =>
      intro h
      simp only [List.contains_cons, Bool.or_eq_false_iff] at h
      have hc : ¬(c = ',') := by
        intro hcc
        rw [hcc] at h
        simp at h
      simp only [dropAfterComma, if_neg hc]
      exact ih h.2
  refine ⟨?_, ?_, rfl, fun _ => rfl⟩
  · intro hstart hcomma
    simp only [clean_b64, clean_b64_str, hstart, if_true, hdrop s.data hcomma]
  · intro c hc
    have hdata : ∀ l : List Char, (List.asString l).data = l := fun _ => rfl
    simp only [clean_b64_str, hdata] at hc
    rw [List.mem_filter] at hc
    simpa using hc.2

/-- C8: the transform catalog is exactly the eight named transforms in
the fixed order orig, gray, gray_resize_x2, contrast_x2, sharp_x2,
contrast_gray_thresh, binary, invert, with the specified definitions;
`contrast_gray_thresh` is grayscale, contrast times 2, then pixel maps
to 255 when strictly above 120 else 0, and `binary` is grayscale then
pixel maps to 255 when strictly above 128 else 0. -/
theorem c8_transform_catalog :
    TRANSFORMS.map Prod.fst =
      ["orig", "gray", "gray_resize_x2", "contrast_x2", "sharp_x2",
       "contrast_gray_thresh", "binary", "invert"]
    ∧ TRANSFORMS.length = 8
    ∧ ∀ im : PILImage, TRANSFORMS.map (fun t => t.2 im) =
        [im,
         im.convertL,
         (im.convertL).resize (im.size.1 * 2) (im.size.2 * 2) .bicubic,
         (im.convertL).enhanceContrast 2,
         im.enhanceSharpness 2,
         ((im.convertL).enhanceContrast 2).point (fun p => if p > 120 then 255 else 0),
         (im.convertL).point (fun p => if p > 128 then 255 else 0),
         (im.convertL).invert] :=
  ⟨rfl, rfl, fun _ => rfl⟩

/-- C2 counterexample: the concrete input string `====` passes the
`DecodeRequest` validation (it is a non-empty string), cleans to
itself, base64-decodes to the empty byte payload, and the image open
step fails with the `UnsupportedImageFormat` kind
(`UnidentifiedImageError`, an `OSError`): the controller returns
HTTP 500, not the claimed 400. -/
theorem c2_counterexample :
    controller_decode true true true zbarNone convOk multiNone singleNone
        pilOpenModel (.str "====") = 500
    ∧ controller_decode true true true zbarNone convOk multiNone singleNone
        pilOpenModel (.str "====") ≠ 400 := by
  constructor
  · rfl
  · decide

/-- C2 amended: an input whose cleaned base64 fails to decode yields
HTTP 400 (`InvalidEncoding`, a `ValueError`, is a client error); an
empty-string or non-string image value is rejected by the
`DecodeRequest` validation (`ValidationError`, a `ValueError`) with
HTTP 400 before the service runs; but a non-empty input whose decoded
bytes cannot be opened as an image yields HTTP 500
(`UnsupportedImageFormat` surfaces as a server error, not a client
error, because `UnidentifiedImageError` subclasses `OSError`); in all
cases the validation or loader error propagates, so the search loop is
never entered. -/
theorem c2_amended_error_boundary (hasPyzbar hasCv2 hasMulti : Bool)
    (zb : ZbarOracle) (cn : ConvOracle) (ml : MultiOracle) (sg : SingleOracle)
    (imageOpen : List Nat → Option PILImage) (s : String) :
    (b64decode (clean_b64_str s) = none →
      controller_decode hasPyzbar hasCv2 hasMulti zb cn ml sg imageOpen (.str s) = 400)
    ∧ (s ≠ "" → ∀ raw, b64decode (clean_b64_str s) = some raw → imageOpen raw = none →
      decode_base64_to_image imageOpen (.str s) =
          .error (.osError "cannot identify image file")
      ∧ controller_decode hasPyzbar hasCv2 hasMulti zb cn ml sg imageOpen (.str s) = 500)
    ∧ controller_decode hasPyzbar hasCv2 hasMulti zb cn ml sg imageOpen (.str "") = 400
    ∧ controller_decode hasPyzbar hasCv2 hasMulti zb cn ml sg imageOpen .nonStr = 400
    ∧ (∀ e, decode_base64_to_image imageOpen (.str s) = .error e →
      decode_image hasPyzbar hasCv2 hasMulti zb cn ml sg imageOpen (.str s) = .error e) := by
  refine ⟨?_, ?_, rfl, rfl, ?_⟩
  · intro h
    by_cases hs : s = ""
    · exfalso
      rw [hs] at h
      exact absurd h (by decide)
    · simp [controller_decode, controller_body, dto_validate, hs, decode_image,
        decode_base64_to_image, clean_b64, h, controller_status]
  · intro hs raw h1 h2
    have hload : decode_base64_to_image imageOpen (.str s) =
        .error (.osError "cannot identify image file") := by
      simp [decode_base64_to_image, clean_b64, h1, h2]
    refine ⟨hload, ?_⟩
    simp [controller_decode, controller_body, dto_validate, hs, decode_image, hload,
      controller_status]
  · intro e he
    simp [decode_image, he]

/- ── Witnesses ── -/

/-- Witness for C2 (amended): the invalid base64 string `AB` yields
HTTP 400; the non-empty string `=` cleans to an empty byte payload
whose image open fails, yielding HTTP 500; a non-string image value is
rejected by the DTO validation with HTTP 400. -/
theorem c2_amended_witness :
    controller_decode true true true zbarNone convOk multiNone singleNone pilOpenModel
        (.str "AB") = 400
    ∧ controller_decode true true true zbarNone convOk multiNone singleNone pilOpenModel
        (.str "=") = 500
    ∧ controller_decode true true true zbarNone convOk multiNone singleNone pilOpenModel
        .nonStr = 400 := by
  refine ⟨?_, ?_, ?_⟩
  · exact (c2_amended_error_boundary true true true zbarNone convOk multiNone singleNone
      pilOpenModel "AB").1 (by decide)
  · exact ((c2_amended_error_boundary true true true zbarNone convOk multiNone singleNone
      pilOpenModel "=").2.1 (by decide) [] (by decide) (by rfl)).2
  · exact (c2_amended_error_boundary true true true zbarNone convOk multiNone singleNone
      pilOpenModel "x").2.2.2.1

/-- Witness for C3 at concrete backend results. -/
theorem c3_witness :
    try_decode_traced true true [⟨"QRCODE", "a"⟩] [⟨"QRCODE", "b"⟩] =
        ([⟨"QRCODE", "a"⟩], ⟨true, false⟩)
    ∧ try_decode_traced true true [] [⟨"QRCODE", "b"⟩] =
        ([⟨"QRCODE", "b"⟩], ⟨true, true⟩)
    ∧ try_decode_traced false true [⟨"QRCODE", "a"⟩] [⟨"QRCODE", "b"⟩] =
        ([⟨"QRCODE", "b"⟩], ⟨false, true⟩)
    ∧ decode_image_loop false false true zbarNone convOk multiNone singleNone
        (.src 4 4) = .failure "No QR/barcode detected with tried preprocessing steps" := by
  have h1 := c3_backend_fallback true true true [⟨"QRCODE", "a"⟩] [⟨"QRCODE", "b"⟩]
      zbarNone convOk multiNone singleNone (.src 4 4)
  have h2 := c3_backend_fallback true true true [] [⟨"QRCODE", "b"⟩]
      zbarNone convOk multiNone singleNone (.src 4 4)
  exact ⟨h1.2.1 (by decide), h2.2.2.1 rfl (by decide), h1.2.2.2.1 (by decide),
    h1.2.2.2.2.2⟩

/-- Witness for C4: the one-character string `A` is invalid base64 and
the controller returns HTTP 400. -/
theorem c4_witness :
    controller_decode true true true zbarNone convOk multiNone singleNone pilOpenModel
        (.str "A") = 400 :=
  (c4_invalid_b64_surfaced true true true zbarNone convOk multiNone singleNone
    pilOpenModel "A" (by decide)).2.2

/-- Witness for C5: a backend reporting two symbols yields the ordered
two-element `data` list. -/
theorem c5_witness :
    AggData.many ["HELLO", "WORLD"] =
      .many (([⟨"QRCODE", "HELLO"⟩, ⟨"QRCODE", "WORLD"⟩] : List QrSymbol).map
        QrSymbol.data) := by
  have h := c5_aggregate_data true true true zbarTwo convOk multiNone singleNone
      (.src 5 5) "orig_rot0" [⟨"QRCODE", "HELLO"⟩, ⟨"QRCODE", "WORLD"⟩]
      (.many ["HELLO", "WORLD"]) (by rfl)
  exact h.2 (by decide)

/-- Witness for C6: with both backends available but finding nothing,
the search on a concrete image returns the failure shape. -/
theorem c6_witness :
    decode_image_loop true true true zbarNone convOk multiNone singleNone (.src 5 5) =
      .failure "No QR/barcode detected with tried preprocessing steps" :=
  (c6_exhaustion_failure true true true zbarNone convOk multiNone singleNone
    (.src 5 5) (by
      intro c hc
      cases hb : (rotStep pilRotate
          (effectiveImage true PILImage.size pilResizeDown (PILImage.src 5 5)) c.1).bind
          c.2.2 with
      | none => exact attemptCand_empty_of_none _ _ _ _ hb
      | some t =>
        rw [attemptCand_of_some _ _ _ _ _ hb]
        rfl)).1

/-- Witness for C7: a transform that raises on a concrete image is
skipped, and raising backend calls yield empty results. -/
theorem c7_witness :
    search_transforms pilRotate (fun _ => ([] : List QrSymbol)) (PILImage.src 3 3) 0
        [("bad", fun _ => none)] = none
    ∧ try_decode_pyzbar true .raised = []
    ∧ try_decode_cv2 true .raised true (.ret (some ["x"])) (.ret "x") = [] := by
  have h := c7_candidate_failure_isolated pilRotate (fun _ => ([] : List QrSymbol))
      (PILImage.src 3 3) 0 [] [] "bad" (fun _ => none) rfl
  exact ⟨h.1, h.2.1 true, h.2.2.1 true true (.ret (some ["x"])) (.ret "x")⟩

/-- Witness for C9: a `data:` string without a comma passes through
whole, minus its whitespace. -/
theorem c9_witness : clean_b64 (.str "data:ab cd") = .ok "data:abcd" := by
  have h := (c9_cleanup_behavior "data:ab cd").1 (by decide) (by decide)
  rw [h]
  rfl

/-- Witness for C10: a non-empty cv2 detection has a non-empty payload
and all-empty detections give an empty result. -/
theorem c10_witness :
    (⟨"QRCODE", "x"⟩ : QrSymbol).data ≠ ""
    ∧ try_decode_cv2 true (.ret ()) true (.ret (some ["", ""])) (.ret "") = [] := by
  refine ⟨?_, ?_⟩
  · exact c10_cv2_nonempty_payloads.1 true (.ret ()) true (.ret (some ["x", ""]))
      (.ret "") ⟨"QRCODE", "x"⟩ (by decide)
  · exact c10_cv2_nonempty_payloads.2 (.ret ()) (.ret "") ["", ""] (by decide)
